import Mathlib

/-!
Shallow embedding of the mpv IPC client transport layer (src/ipc.go):
the wire encoding, the pending-request table (reqMap), the dispatcher,
one iteration of the write loop and of the read loop, and the blocking
Exec facade. Go maps are modelled as association lists, channel sends as
explicit delivery lists, and the random id source, the connection write
outcome and the JSON decode outcome as explicit parameters.
-/

namespace Mpv

/-- A Go interface value as it occurs in command argument lists:
either a string or an integer. -/
inductive GoVal
  | str (s : String)
  | int (n : Int)
deriving DecidableEq

/-- The request struct (src/ipc.go lines 44-49). The Response channel is
modelled separately, via explicit Delivery lists; Command, RequestID and
RawString are the data fields. -/
structure Request where
  command : List GoVal
  requestID : Nat
  rawString : String
deriving DecidableEq

/-- The Response struct (src/ipc.go lines 35-41): error string, optional
data payload, event name, request id and the raw bytes of the record. -/
structure Response where
  err : String
  data : Option GoVal
  event : String
  requestID : Nat
  bytes : String
deriving DecidableEq

/-- rand.Intn n, with the draw from the random source made explicit as r. -/
def randIntn (r n : Nat) : Nat := r % n

/-- newRequest (src/ipc.go lines 51-64). The variadic cmd is a list; the
random draw r is explicit. Returns none where the Go code panics on the
unchecked type assertions cmd[0].(string) and cmd[1].(string). -/
def newRequest (r : Nat) (cmd : List GoVal) : Option Request :=
  let req : Request := ⟨cmd, randIntn r 10000, ""⟩
  if cmd.length < 2 then some req
  else
    match cmd with
    | GoVal.str s :: rest =>
      if s = "raw" then
        match rest with
        | GoVal.str w :: _ => some { req with rawString := w }
        | _ => none
      else some req
    | _ => none

/-- One hex digit, lower case, as produced by Go's JSON string escaper. -/
def hexDigit (n : Nat) : Char :=
  if n < 10 then Char.ofNat (48 + n) else Char.ofNat (87 + n)

/-- Escaping of a single character as done by Go's encoding/json encoder
(with its default HTML escaping of angle brackets and ampersands). -/
def escapeChar (c : Char) : String :=
  if c = '"' then "\\\""
  else if c = '\\' then "\\\\"
  else if c = '\n' then "\\n"
  else if c = '\r' then "\\r"
  else if c = '\t' then "\\t"
  else if c = '<' then "\\u003c"
  else if c = '>' then "\\u003e"
  else if c = '&' then "\\u0026"
  else if c.toNat < 32 then
    "\\u00" ++ String.mk [hexDigit (c.toNat / 16), hexDigit (c.toNat % 16)]
  else String.mk [c]

/-- A Go JSON string literal: quotes around the escaped characters. -/
def jsonString (s : String) : String :=
  "\"" ++ String.join (s.toList.map escapeChar) ++ "\""

/-- json.Marshal of a single command argument value. -/
def marshalGoVal : GoVal → String
  | GoVal.str s => jsonString s
  | GoVal.int n => toString n

/-- json.Marshal of the Command slice. Exec's variadic parameter with zero
arguments yields a nil slice in Go, which marshals as null. -/
def marshalCommand (cmd : List GoVal) : String :=
  if cmd.isEmpty then "null"
  else "[" ++ String.intercalate "," (cmd.map marshalGoVal) ++ "]"

/-- json.Marshal of the request struct (src/ipc.go line 137): the fields in
declaration order are command, request_id and the untagged RawString; the
Response channel field is excluded by its json tag. -/
def marshalRequest (req : Request) : String :=
  "\x7b\"command\":" ++ marshalCommand req.command
    ++ ",\"request_id\":" ++ toString req.requestID
    ++ ",\"RawString\":" ++ jsonString req.rawString ++ "\x7d"

/-- The bytes the write loop puts on the wire for req (src/ipc.go lines
137-149): the generic marshal plus newline, except that a command of more
than one element whose first element is the string "raw" is replaced by
the Sprintf concatenation of the raw fragment and the request id. -/
def encodeOutbound (req : Request) : String :=
  if 1 < req.command.length ∧ req.command.head? = some (GoVal.str "raw") then
    "\x7b" ++ req.rawString ++ ",\"request_id\":" ++ toString req.requestID ++ "\x7d\n"
  else marshalRequest req ++ "\n"

/-- The mutable state of an IPCClient guarded by its mutex: the pending
request table reqMap and the event handler table (handlers are modelled
by opaque-to-us numeric identities, since only their identity matters
here). -/
structure ClientState where
  reqMap : List (Nat × Request)
  event : List (String × Nat)
deriving DecidableEq

/-- Go map lookup reqMap[k] on the association-list model. -/
def mapLookup (m : List (Nat × Request)) (k : Nat) : Option Request :=
  match m.find? (fun p => p.1 == k) with
  | some p => some p.2
  | none => none

/-- Go's delete(reqMap, k): remove the binding of k. -/
def mapErase (m : List (Nat × Request)) (k : Nat) : List (Nat × Request) :=
  m.filter (fun p => !(p.1 == k))

/-- Go map assignment reqMap[k] = v: bind k to v, replacing any old binding. -/
def mapInsert (m : List (Nat × Request)) (k : Nat) (v : Request) :
    List (Nat × Request) :=
  (k, v) :: mapErase m k

/-- Lookup in the event handler table, event[name]. -/
def evLookup (m : List (String × Nat)) (k : String) : Option Nat :=
  match m.find? (fun p => p.1 == k) with
  | some p => some p.2
  | none => none

/-- An observable effect of the client on its waiters: a send on some
request's private reply channel, or an invocation of an event handler. -/
inductive Delivery
  | toSlot (req : Request) (resp : Response)
  | toHandler (h : Nat) (resp : Response)
deriving DecidableEq

/-- dispatch (src/ipc.go lines 103-119): under the mutex, a message with
empty event name is a reply: if its request id is in reqMap, the entry is
deleted and the response is sent on that request's channel, otherwise the
response is discarded. A message with an event name invokes the handler
registered under that name, if any. -/
def dispatch (st : ClientState) (resp : Response) : ClientState × List Delivery :=
  if resp.event = "" then
    match mapLookup st.reqMap resp.requestID with
    | some req =>
        ({ st with reqMap := mapErase st.reqMap resp.requestID },
         [Delivery.toSlot req resp])
    | none => (st, [])
  else
    match evLookup st.event resp.event with
    | some h => (st, [Delivery.toHandler h resp])
    | none => (st, [])

/-- The steps one iteration of the write loop takes against the pending
table and the connection, in order. -/
inductive WireOp
  | insertPending (id : Nat)
  | write (bytes : String)
  | deletePending (id : Nat)
deriving DecidableEq

/-- One iteration of writeloop for a dequeued request req (src/ipc.go
lines 133-157). json.Marshal cannot fail on the modelled value domain, so
the marshal-error continue branch is unreachable here; writeOk is the
outcome of conn.Write. The loop inserts req into reqMap, writes the
encoded bytes, and on write failure deletes the entry again. It never
sends on the request's reply channel, so the delivery list is empty. -/
def writeloopStep (st : ClientState) (req : Request) (writeOk : Bool) :
    ClientState × List WireOp × List Delivery :=
  let st1 : ClientState := { st with reqMap := mapInsert st.reqMap req.requestID req }
  let b := encodeOutbound req
  if writeOk then
    (st1, [WireOp.insertPending req.requestID, WireOp.write b], [])
  else
    ({ st1 with reqMap := mapErase st1.reqMap req.requestID },
     [WireOp.insertPending req.requestID, WireOp.write b,
      WireOp.deletePending req.requestID], [])

/-- What one turn of the read loop gets from the connection: either a read
error from ReadBytes, or a newline-terminated record together with the
result of json.Unmarshal on it (none when unmarshalling fails). The
decoded Response carries the record's raw bytes in its bytes field, as
the Go code copies them in before unmarshalling. -/
inductive ReadInput
  | readError
  | line (data : String) (decoded : Option Response)

/-- One iteration of readloop (src/ipc.go lines 163-178): a read error is
ignored and the loop continues; a record that fails to unmarshal is
dropped and the loop continues; a decoded record is handed to dispatch.
The Bool in the result is whether the loop proceeds to another
iteration. -/
def readloopStep (st : ClientState) (inp : ReadInput) :
    ClientState × List Delivery × Bool :=
  match inp with
  | ReadInput.readError => (st, [], true)
  | ReadInput.line _ none => (st, [], true)
  | ReadInput.line _ (some resp) =>
      let r := dispatch st resp
      (r.1, r.2, true)

/-- The communication errors Exec can return (src/ipc.go lines 182-185). -/
inductive ExecError
  | timeoutSend
  | timeoutRecv
deriving DecidableEq

/-- The second select of Exec (src/ipc.go lines 200-208): block on the
request's reply slot against the receive timeout. arrived is the reply
delivered to the slot before the deadline, if any. The state st of the
client is passed through untouched, exactly as in the source: this
branch of Exec performs no reqMap access at all. The closed-channel
panic branch is unreachable since nothing closes a reply channel. -/
def execRecvPhase (st : ClientState) (arrived : Option Response) :
    ClientState × Option Response × Option ExecError :=
  match arrived with
  | some res => (st, some res, none)
  | none => (st, none, some ExecError.timeoutRecv)

/-- Exec (src/ipc.go lines 192-209): build the request (none = the type
assertion in newRequest panicked), then try the handoff to the comm
channel against the send timeout (handoffOk), then block on the reply
slot against the receive timeout (arrived). -/
def Exec (st : ClientState) (r : Nat) (cmd : List GoVal) (handoffOk : Bool)
    (arrived : Option Response) :
    Option (ClientState × Option Response × Option ExecError) :=
  match newRequest r cmd with
  | none => none
  | some _ =>
      if handoffOk then some (execRecvPhase st arrived)
      else some (st, none, some ExecError.timeoutSend)

/-- Helper: deleting a key from the pending table makes a lookup of that
key miss. -/
theorem mapLookup_mapErase (m : List (Nat × Request)) (k : Nat) :
    mapLookup (mapErase m k) k = none := by
  induction m with
  | nil => rfl
  | cons p t ih =>
      by_cases h : p.1 = k
      · simpa [mapErase, List.filter_cons, h] using ih
      · simpa [mapErase, mapLookup, List.filter_cons, List.find?, h] using ih

/-- Helper: a reply whose id is absent from the pending table leaves the
state unchanged and delivers nothing. -/
theorem dispatch_miss (st : ClientState) (resp : Response)
    (hev : resp.event = "") (hmiss : mapLookup st.reqMap resp.requestID = none) :
    dispatch st resp = (st, []) := by
  unfold dispatch
  rw [if_pos hev, hmiss]

/-- Claim C9: an inbound record that fails to decode as JSON is dropped by
the read loop: the client state is unchanged, nothing is delivered to any
reply slot or handler, and the loop continues with the next record. -/
theorem malformed_record_dropped (st : ClientState) (data : String) :
    readloopStep st (ReadInput.line data none) = (st, [], true) := rfl

/-- Claim C3, the code at the failing input: on a non-recoverable read
error the read loop does not terminate; it leaves the state unchanged,
resolves no pending request, and continues looping. -/
theorem read_error_loop_continues (st : ClientState) :
    readloopStep st ReadInput.readError = (st, [], true) := rfl

/-- Claim C8: dispatching a reply (empty event name) whose correlation id
matches no pending entry has no observable effect: the whole client state,
pending table and handler table included, is returned unchanged and no
delivery is made. -/
theorem dispatch_unknown_id_noop (st : ClientState) (resp : Response)
    (hev : resp.event = "") (hmiss : mapLookup st.reqMap resp.requestID = none) :
    dispatch st resp = (st, []) :=
  dispatch_miss st resp hev hmiss

/-- Witness for C8 at a concrete state and reply with unknown id 99. -/
theorem dispatch_unknown_id_noop_witness :
    dispatch ⟨[(5, ⟨[GoVal.str "stop"], 5, ""⟩)], [("seek", 1)]⟩
        ⟨"", none, "", 99, "rec"⟩
      = (⟨[(5, ⟨[GoVal.str "stop"], 5, ""⟩)], [("seek", 1)]⟩, []) :=
  dispatch_unknown_id_noop _ _ rfl rfl

/-- Claim C7: resolving an id present in the pending table delivers the
reply to that request's slot exactly once and removes the id; dispatching
a second reply with the same id is a no-op that delivers nothing and
leaves the state unchanged. -/
theorem dispatch_at_most_once (st : ClientState) (resp : Response) (req : Request)
    (hev : resp.event = "") (hin : mapLookup st.reqMap resp.requestID = some req) :
    (dispatch st resp).2 = [Delivery.toSlot req resp] ∧
    mapLookup (dispatch st resp).1.reqMap resp.requestID = none ∧
    dispatch (dispatch st resp).1 resp = ((dispatch st resp).1, []) := by
  have hd : dispatch st resp
      = ({ st with reqMap := mapErase st.reqMap resp.requestID },
         [Delivery.toSlot req resp]) := by
    unfold dispatch
    rw [if_pos hev, hin]
  refine ⟨by rw [hd], ?_, ?_⟩
  · rw [hd]
    exact mapLookup_mapErase _ _
  · rw [hd]
    exact dispatch_miss _ _ hev (mapLookup_mapErase _ _)

/-- Witness for C7: a reply for pending id 5 is delivered once; the second
identical reply is a no-op. -/
theorem dispatch_at_most_once_witness :
    (dispatch ⟨[(5, ⟨[GoVal.str "get_property"], 5, ""⟩)], []⟩
        ⟨"success", some (GoVal.int 50), "", 5, "b"⟩).2
      = [Delivery.toSlot ⟨[GoVal.str "get_property"], 5, ""⟩
          ⟨"success", some (GoVal.int 50), "", 5, "b"⟩] ∧
    mapLookup (dispatch ⟨[(5, ⟨[GoVal.str "get_property"], 5, ""⟩)], []⟩
        ⟨"success", some (GoVal.int 50), "", 5, "b"⟩).1.reqMap 5 = none ∧
    dispatch (dispatch ⟨[(5, ⟨[GoVal.str "get_property"], 5, ""⟩)], []⟩
        ⟨"success", some (GoVal.int 50), "", 5, "b"⟩).1
        ⟨"success", some (GoVal.int 50), "", 5, "b"⟩
      = ((dispatch ⟨[(5, ⟨[GoVal.str "get_property"], 5, ""⟩)], []⟩
          ⟨"success", some (GoVal.int 50), "", 5, "b"⟩).1, []) :=
  dispatch_at_most_once _ _ _ rfl rfl

/-- The request of the C1 scenario: two string arguments, id drawn as 7. -/
def c1req : Request := ⟨[GoVal.str "get_property", GoVal.str "volume"], 7, ""⟩

/-- The client state of the C1 scenario: the write loop has registered and
written c1req successfully. -/
def c1st : ClientState := (writeloopStep ⟨[], []⟩ c1req true).1

/-- Claim C1 counterexample: request id 7 was handed off and written, no
reply arrives before the receive deadline. Exec does return the receive
timeout error, but the pending table still contains id 7 after Exec
returns, contradicting the claim that the id is gone. -/
theorem exec_timeout_keeps_pending_cex :
    newRequest 7 [GoVal.str "get_property", GoVal.str "volume"] = some c1req ∧
    Exec c1st 7 [GoVal.str "get_property", GoVal.str "volume"] true none
      = some (c1st, none, some ExecError.timeoutRecv) ∧
    mapLookup c1st.reqMap 7 = some c1req :=
  ⟨rfl, rfl, rfl⟩

/-- Claim C1 as amended: when no reply reaches the slot before the receive
deadline, Exec returns the receive timeout error and leaves the client
state, the pending table included, completely unchanged: Exec performs no
cleanup of the correlation id. -/
theorem exec_recv_timeout_state_unchanged (st : ClientState) (r : Nat)
    (cmd : List GoVal) (req : Request) (h : newRequest r cmd = some req) :
    Exec st r cmd true none = some (st, none, some ExecError.timeoutRecv) := by
  unfold Exec
  rw [h]
  rfl

/-- Witness for the amended C1 at a concrete single-argument command. -/
theorem exec_recv_timeout_state_unchanged_witness :
    Exec ⟨[], []⟩ 3 [GoVal.str "stop"] true none
      = some (⟨[], []⟩, none, some ExecError.timeoutRecv) :=
  exec_recv_timeout_state_unchanged ⟨[], []⟩ 3 [GoVal.str "stop"]
    ⟨[GoVal.str "stop"], 3, ""⟩ rfl

/-- Claim C2 counterexample: a write failure for the request with id 3.
The write loop does delete id 3 from the pending table, but its delivery
list is empty: no send error ever reaches the request's reply slot,
contradicting the claim that the blocked caller is woken with an error. -/
theorem write_failure_no_slot_delivery_cex :
    (writeloopStep ⟨[], []⟩ ⟨[GoVal.str "seek", GoVal.int 5], 3, ""⟩ false).2.2 = [] ∧
    mapLookup (writeloopStep ⟨[], []⟩ ⟨[GoVal.str "seek", GoVal.int 5], 3, ""⟩
        false).1.reqMap 3 = none :=
  ⟨rfl, rfl⟩

/-- Claim C2 as amended: when the connection write fails, the write loop
removes the request's correlation id from the pending table but delivers
nothing to the request's reply slot; the caller is left to its own
receive timeout. -/
theorem write_failure_removes_without_delivery (st : ClientState) (req : Request) :
    mapLookup (writeloopStep st req false).1.reqMap req.requestID = none ∧
    (writeloopStep st req false).2.2 = [] := by
  constructor
  · show mapLookup (mapErase (mapInsert st.reqMap req.requestID req) req.requestID)
        req.requestID = none
    exact mapLookup_mapErase _ _
  · rfl

/-- Claim C4 counterexample: id 42 is still pending, yet the generator,
fed the random draw 10042, produces 42 again; newRequest takes no pending
table at all and performs no collision check. -/
theorem id_collision_with_pending_cex :
    mapLookup [(42, ⟨[GoVal.str "get_version"], 42, ""⟩)] 42
      = some ⟨[GoVal.str "get_version"], 42, ""⟩ ∧
    (newRequest 10042 [GoVal.str "get_property", GoVal.str "volume"]).map
        Request.requestID = some 42 :=
  ⟨rfl, rfl⟩

/-- Claim C4 as amended: the correlation id of every request newRequest
builds is rand.Intn 10000 applied to the random draw alone; the generator
never consults the pending table and never retries, so a draw may repeat
a still-pending id. -/
theorem newRequest_id_from_draw_only (r : Nat) (cmd : List GoVal) (req : Request)
    (h : newRequest r cmd = some req) : req.requestID = randIntn r 10000 := by
  unfold newRequest at h
  split at h
  · cases h
    rfl
  · split at h
    · split at h
      · split at h
        · cases h
          rfl
        · cases h
      · cases h
        rfl
    · cases h

/-- Witness for the amended C4 at draw 5 and a one-argument command. -/
theorem newRequest_id_from_draw_only_witness :
    (⟨[GoVal.str "stop"], 5, ""⟩ : Request).requestID = randIntn 5 10000 :=
  newRequest_id_from_draw_only 5 [GoVal.str "stop"] ⟨[GoVal.str "stop"], 5, ""⟩ rfl

/-- Claim C5: for every request built from a command whose first element is
the string "raw" and whose second element is a string fragment, the wire
record is the literal concatenation of a left brace, the fragment, the
text comma-quote-request_id-quote-colon, the decimal id, a right brace
and a newline; in particular the spec's concrete playlist-remove example
with id 42 encodes byte for byte as stated. -/
theorem raw_escape_encoding :
    (∀ (r : Nat) (w : String) (rest : List GoVal) (req : Request),
        newRequest r (GoVal.str "raw" :: GoVal.str w :: rest) = some req →
        encodeOutbound req
          = "\x7b" ++ w ++ ",\"request_id\":" ++ toString (randIntn r 10000)
              ++ "\x7d\n")
    ∧ (newRequest 42 [GoVal.str "raw",
          GoVal.str "\"command\":[\"playlist-remove\"],\"index\":5"]).map encodeOutbound
        = some "\x7b\"command\":[\"playlist-remove\"],\"index\":5,\"request_id\":42\x7d\n" := by
  constructor
  · intro r w rest req h
    have hreq : req = ⟨GoVal.str "raw" :: GoVal.str w :: rest, randIntn r 10000, w⟩ := by
      have h2 : ¬ (rest.length + 1 + 1 < 2) := by omega
      simp [newRequest, h2] at h
      exact h.symm
    subst hreq
    simp [encodeOutbound]
  · rfl

/-- Witness for C5 at a concrete raw command with id 9. -/
theorem raw_escape_encoding_witness :
    encodeOutbound ⟨[GoVal.str "raw", GoVal.str "\"vol\":1"], 9, "\"vol\":1"⟩
      = "\x7b" ++ "\"vol\":1" ++ ",\"request_id\":" ++ toString (randIntn 9 10000)
          ++ "\x7d\n" :=
  raw_escape_encoding.1 9 "\"vol\":1" []
    ⟨[GoVal.str "raw", GoVal.str "\"vol\":1"], 9, "\"vol\":1"⟩ rfl

/-- Claim C6: in every write loop iteration, whenever the encoded bytes
are written to the connection, the insertion of the request's correlation
id into the pending table occurs strictly earlier in the iteration's
sequence of operations. -/
theorem pending_registered_before_write (st : ClientState) (req : Request)
    (ok : Bool) (j : Nat) (b : String)
    (h : ((writeloopStep st req ok).2.1).get? j = some (WireOp.write b)) :
    ∃ i, i < j ∧ ((writeloopStep st req ok).2.1).get? i
        = some (WireOp.insertPending req.requestID) := by
  cases ok <;>
    (cases j with
     | zero => exact absurd h (by simp [writeloopStep])
     | succ n => exact ⟨0, Nat.succ_pos n, rfl⟩)

/-- Witness for C6: in a successful iteration for id 4 the write is at
position 1 and the insertion at position 0. -/
theorem pending_registered_before_write_witness :
    ∃ i, i < 1 ∧ ((writeloopStep ⟨[], []⟩ ⟨[GoVal.str "stop"], 4, ""⟩ true).2.1).get? i
        = some (WireOp.insertPending 4) :=
  pending_registered_before_write ⟨[], []⟩ ⟨[GoVal.str "stop"], 4, ""⟩ true 1
    (encodeOutbound ⟨[GoVal.str "stop"], 4, ""⟩) rfl

/-- Claim C10: calling Exec with at least two arguments whose first
argument is not a string (here: an integer) panics inside newRequest on
the unchecked type assertion, before any communication happens; the model
returns none for that panic whatever the handoff and reply outcomes. -/
theorem exec_nonstring_first_arg_panics (st : ClientState) (r : Nat) (n : Int)
    (rest : List GoVal) (handoffOk : Bool) (arrived : Option Response)
    (hrest : rest ≠ []) :
    Exec st r (GoVal.int n :: rest) handoffOk arrived = none := by
  cases rest with
  | nil => exact absurd rfl hrest
  | cons a l =>
      have hlen : ¬ (l.length + 1 + 1 < 2) := by omega
      simp [Exec, newRequest, hlen]

/-- Witness for C10: Exec on the two integer arguments 1 and 2 panics. -/
theorem exec_nonstring_first_arg_panics_witness :
    Exec ⟨[], []⟩ 0 [GoVal.int 1, GoVal.int 2] true none = none :=
  exec_nonstring_first_arg_panics ⟨[], []⟩ 0 1 [GoVal.int 2] true none
    (List.cons_ne_nil _ _)

end Mpv
